import Mathlib

/-!
Verification of `src/images/artifact-downloader/check-size/check-hf-size.py`.

The script reads the environment variable `MODEL_PATH`, performs a single
`HfApi().model_info(MODEL_PATH, files_metadata=True)` call, and either prints
the sum of the `size` fields of `info.siblings` (missing sizes counting as 0)
to stdout, or maps the raised exception to stderr diagnostics and an exit code
via three `except` clauses tried in textual order.

The embedding models the outcome of the remote lookup as data (`LookupResult`)
and the whole process run as a pure function producing the stdout lines, the
stderr lines, the exit code, how many times the lookup was performed, and
whether the process died of an uncaught exception.
-/

/-- A file entry ("sibling") of the repository metadata.  Its `size` field is
an optional byte count; byte counts are non-negative, hence `Nat`. -/
structure Sibling where
  size : Option Nat
deriving DecidableEq, Repr

/-- The repository metadata returned by a successful `model_info` call. -/
structure ModelInfo where
  siblings : List Sibling
deriving DecidableEq, Repr

/-- The Python exceptions distinguished by the script.  `otherError` stands
for any exception that is neither of the two named `huggingface_hub` errors;
it carries the string the interpreter would render for `{e}`. -/
inductive PyExc where
  | gatedRepoError
  | repositoryNotFoundError
  | otherError (msg : String)
deriving DecidableEq, Repr

/-- The exception classes named by the `except` clauses of the script. -/
inductive ExcClass where
  | RepositoryNotFoundError
  | GatedRepoError
  | ExceptionCls
deriving DecidableEq, Repr

/-- Python `isinstance`, restricted to the classes the script matches on.
The class hierarchy is the one of the `huggingface_hub` client library, whose
source declares `class GatedRepoError(RepositoryNotFoundError)`: a gated-repo
error IS a repository-not-found error, and both are `Exception`s. -/
def isInstance : PyExc → ExcClass → Bool
  | .gatedRepoError, .GatedRepoError => true
  | .gatedRepoError, .RepositoryNotFoundError => true
  | .gatedRepoError, .ExceptionCls => true
  | .repositoryNotFoundError, .RepositoryNotFoundError => true
  | .repositoryNotFoundError, .ExceptionCls => true
  | .otherError _, .ExceptionCls => true
  | _, _ => false

/-- The string the f-string `{e}` renders for the caught exception in the
`except Exception as e` clause. -/
def excMessage : PyExc → String
  | .gatedRepoError => "GatedRepoError"
  | .repositoryNotFoundError => "RepositoryNotFoundError"
  | .otherError msg => msg

/-- What the single `model_info` call does: return metadata or raise. -/
inductive LookupResult where
  | ok (info : ModelInfo)
  | raise (e : PyExc)
deriving DecidableEq, Repr

/-- Observable result of one process run. -/
structure ProcResult where
  stdout : List String
  stderr : List String
  exitCode : Nat
  lookupCalls : Nat
  crashed : Bool
deriving DecidableEq, Repr

/-- `sum(f.size or 0 for f in info.siblings)`.  For a `size` that is an
integer, `size or 0` is `size` when nonzero and `0` when zero, and `0` when
`size` is `None`; on non-negative integers this is exactly `Option.getD 0`. -/
def totalSize (info : ModelInfo) : Nat :=
  (info.siblings.map (fun f => f.size.getD 0)).sum

/-- The whole script, `check-hf-size.py`, as a function of the environment
(`env` is `os.environ.get('MODEL_PATH')`) and of what the single `model_info`
call would do for that identifier.

`MODEL_PATH = os.environ['MODEL_PATH']` raises an uncaught `KeyError` when the
variable is absent (this happens before the `try` block, so no handler runs;
CPython terminates an uncaught exception with exit status 1 and prints a
traceback, which is interpreter output rather than program output, so `stderr`
here records only the lines the program itself prints).

Otherwise the `try` body runs; on an exception the `except` clauses are tried
in textual order and the first one whose class matches (per `isInstance`)
handles it. -/
def checkHfSize (env : Option String) (outcome : LookupResult) : ProcResult :=
  match env with
  | none =>
      { stdout := [], stderr := [], exitCode := 1, lookupCalls := 0, crashed := true }
  | some mp =>
      match outcome with
      | .ok info =>
          { stdout := [toString (totalSize info)], stderr := [],
            exitCode := 0, lookupCalls := 1, crashed := false }
      | .raise e =>
          if isInstance e .RepositoryNotFoundError then
            { stdout := [],
              stderr := ["Repository Not Found: " ++ mp,
                         "Check the model name or ensure it exists on HuggingFace."],
              exitCode := 1, lookupCalls := 1, crashed := false }
          else if isInstance e .GatedRepoError then
            { stdout := [],
              stderr := ["Model requires authentication: " ++ mp,
                         "Set HF_TOKEN environment variable with a valid HuggingFace token.",
                         "Cannot access gated repo: " ++ mp],
              exitCode := 2, lookupCalls := 1, crashed := false }
          else
            { stdout := [],
              stderr := ["Failed to fetch model info: " ++ excMessage e],
              exitCode := 3, lookupCalls := 1, crashed := false }

/-- Claim C1: when the metadata lookup succeeds, the program writes to stdout
the sum of the size fields of all file descriptors, an absent size counting as
zero, and exits with code 0; in particular for sizes [10, 20, None] the output
is "30". -/
theorem C1_success_prints_sum (mp : String) (info : ModelInfo) :
    (checkHfSize (some mp) (.ok info)).stdout = [toString (totalSize info)]
    ∧ (checkHfSize (some mp) (.ok info)).exitCode = 0
    ∧ (checkHfSize (some mp)
        (.ok ⟨[⟨some 10⟩, ⟨some 20⟩, ⟨none⟩]⟩)).stdout = ["30"] := by
  exact ⟨rfl, rfl, rfl⟩

/-- Claim C2 (code bug): the gated-repository handler at lines 13-17 never
runs.  Because `GatedRepoError` is a subclass of `RepositoryNotFoundError`,
a gated error raised by the lookup is caught by the not-found clause listed
first: the program prints the "Repository Not Found" diagnostics and exits
with code 1, not the authentication diagnostics with code 2 that the clause at
lines 13-17 (and the spec) intend. -/
theorem C2_gated_error_exits_one :
    (checkHfSize (some "org/model") (.raise .gatedRepoError)).exitCode = 1
    ∧ (checkHfSize (some "org/model") (.raise .gatedRepoError)).stderr
        = ["Repository Not Found: org/model",
           "Check the model name or ensure it exists on HuggingFace."] := by
  constructor <;> rfl

/-- Claim C3: when the lookup raises a repository-not-found error (not the
gated subcase), the program writes "Repository Not Found: {id}" and a hint to
check the name to stderr and exits with code 1. -/
theorem C3_not_found (mp : String) :
    (checkHfSize (some mp) (.raise .repositoryNotFoundError)).exitCode = 1
    ∧ (checkHfSize (some mp) (.raise .repositoryNotFoundError)).stderr
        = ["Repository Not Found: " ++ mp,
           "Check the model name or ensure it exists on HuggingFace."]
    ∧ (checkHfSize (some mp) (.raise .repositoryNotFoundError)).stdout = [] := by
  exact ⟨rfl, rfl, rfl⟩

/-- Claim C4: when the lookup fails with an error that is neither a
repository-not-found nor a gated-repository error, the program writes
"Failed to fetch model info: {error}" to stderr and exits with code 3. -/
theorem C4_other_failure (mp msg : String) :
    (checkHfSize (some mp) (.raise (.otherError msg))).exitCode = 3
    ∧ (checkHfSize (some mp) (.raise (.otherError msg))).stderr
        = ["Failed to fetch model info: " ++ msg]
    ∧ (checkHfSize (some mp) (.raise (.otherError msg))).stdout = [] := by
  exact ⟨rfl, rfl, rfl⟩

/-- Claim C5: the printed total is non-negative (sizes are byte counts, so the
sum lives in `Nat`), and a repository with an empty file list prints "0". -/
theorem C5_sum_nonneg_empty_zero (mp : String) (info : ModelInfo) :
    0 ≤ totalSize info
    ∧ (checkHfSize (some mp) (.ok ⟨[]⟩)).stdout = ["0"] := by
  exact ⟨Nat.zero_le _, rfl⟩

/-- Claim C6: when `MODEL_PATH` is absent the program crashes with an uncaught
exception before any lookup is performed — no handler runs, nothing is printed
by the program, the lookup is never made — and terminates with a non-zero exit
code. -/
theorem C6_missing_env_crash (outcome : LookupResult) :
    (checkHfSize none outcome).crashed = true
    ∧ (checkHfSize none outcome).exitCode ≠ 0
    ∧ (checkHfSize none outcome).lookupCalls = 0
    ∧ (checkHfSize none outcome).stdout = [] := by
  refine ⟨rfl, ?_, rfl, rfl⟩
  simp [checkHfSize]

/-- Claim C7: with `MODEL_PATH` set, the remote metadata lookup is performed
exactly once — never retried and never repeated — whatever its outcome. -/
theorem C7_lookup_once (mp : String) (outcome : LookupResult) :
    (checkHfSize (some mp) outcome).lookupCalls = 1 := by
  cases outcome with
  | ok info => rfl
  | raise e => cases e <;> rfl

/-- Claim C8 (code bug): with `MODEL_PATH` set, the reachable exit codes are
exactly 0 (success), 1, and 3 — never 2.  The claimed mapping "2 on gated/auth
failure" does not hold: a gated error is swallowed by the not-found clause
(see `isInstance`), so it exits with code 1 and the exit-2 path is dead. -/
theorem C8_exit_codes (mp : String) (outcome : LookupResult) :
    (checkHfSize (some mp) outcome).exitCode ∈ [0, 1, 3]
    ∧ (checkHfSize (some "org/model") (.raise .gatedRepoError)).exitCode = 1
    ∧ (checkHfSize (some "org/model") (.raise .gatedRepoError)).exitCode ≠ 2 := by
  refine ⟨?_, rfl, by decide⟩
  cases outcome with
  | ok info => simp [checkHfSize]
  | raise e => cases e <;> simp [checkHfSize, isInstance]

/-- Claim C9: stdout is written only on the success path (a single line with
the decimal total, and stderr stays empty); on every failure path with
`MODEL_PATH` set, stdout stays empty and all diagnostics go to stderr. -/
theorem C9_stdout_only_success (mp : String) (info : ModelInfo) (e : PyExc) :
    (checkHfSize (some mp) (.ok info)).stdout = [toString (totalSize info)]
    ∧ (checkHfSize (some mp) (.ok info)).stderr = []
    ∧ (checkHfSize (some mp) (.raise e)).stdout = []
    ∧ (checkHfSize (some mp) (.raise e)).stderr ≠ [] := by
  refine ⟨rfl, rfl, ?_, ?_⟩ <;> cases e <;> simp [checkHfSize, isInstance]

/-- Claim C10: because `GatedRepoError` subclasses `RepositoryNotFoundError`
in the client library and the not-found clause is listed first, every gated
error is caught by the not-found handler — producing the "Repository Not
Found" messages and exit code 1 — and the gated handler at lines 13-17 is
unreachable: no run with `MODEL_PATH` set ever exits with code 2 or prints
its messages. -/
theorem C10_gated_unreachable (mp : String) (outcome : LookupResult) :
    isInstance .gatedRepoError .RepositoryNotFoundError = true
    ∧ (checkHfSize (some mp) (.raise .gatedRepoError))
        = (checkHfSize (some mp) (.raise .repositoryNotFoundError))
    ∧ (checkHfSize (some mp) outcome).exitCode ≠ 2
    ∧ (checkHfSize (some mp) outcome).stderr
        ≠ ["Model requires authentication: " ++ mp,
           "Set HF_TOKEN environment variable with a valid HuggingFace token.",
           "Cannot access gated repo: " ++ mp] := by
  refine ⟨rfl, rfl, ?_, ?_⟩
  all_goals cases outcome with
  | ok info => simp [checkHfSize]
  | raise e => cases e <;> simp [checkHfSize, isInstance]
